import Mathlib

/-!
Verification development for the research-article generator script
(`UseCase2.py`).  The script collects uploaded transcript files and an API
key, checks the credential against the model-listing endpoint, runs an
external three-agent pipeline, and converts the resulting text into a
Word document with fixed styling rules.

The shallow embedding below models, faithfully to the source:
  * the document-formatting loop (`text_content.split('\n')`,
    `line.strip('*')`, keyword-based subheading detection, navy color on
    the first run, margins `Pt(72)`), and
  * the submit handler's control flow (input validation, the single
    `requests.get` credential check with `raise_for_status`, the
    exception handlers, and the download offer).
-/

/-! ### Basic string helpers (embedding Python's `in`, `strip`, `split`) -/

/-- Does `hay` start with `needle`? (char-list level). -/
def startsWithList : List Char → List Char → Bool
  | [], _ => true
  | _ :: _, [] => false
  | a :: as, b :: bs => a = b && startsWithList as bs

/-- Python's substring test `needle in hay`, at the char-list level. -/
def containsList (needle : List Char) : List Char → Bool
  | [] => startsWithList needle []
  | b :: bs => startsWithList needle (b :: bs) || containsList needle bs

/-- Python's `needle in hay` on strings. -/
def strContains (hay needle : String) : Bool :=
  containsList needle.data hay.data

/-- Drop leading occurrences of a character. -/
def dropLeadingChar (c : Char) : List Char → List Char
  | [] => []
  | x :: xs => if x = c then dropLeadingChar c xs else x :: xs

/-- Python's `line.strip('*')`: remove leading and trailing `*` characters. -/
def stripStars (s : String) : String :=
  String.mk ((dropLeadingChar '*' ((dropLeadingChar '*' s.data).reverse)).reverse)

/-- Split a char list on a separator character, keeping empty pieces,
exactly like Python's `str.split(sep)`. -/
def splitOnCharList (c : Char) : List Char → List (List Char)
  | [] => [[]]
  | x :: xs =>
    if x = c then [] :: splitOnCharList c xs
    else
      match splitOnCharList c xs with
      | [] => [[x]]
      | l :: ls => (x :: l) :: ls

/-- Python's `text_content.split('\n')`. -/
def splitLines (s : String) : List String :=
  (splitOnCharList '\n' s.data).map String.mk

/-! ### Document model (python-docx objects as used by the script) -/

/-- An RGB color, as in `docx.shared.RGBColor`. -/
structure Rgb where
  r : Nat
  g : Nat
  b : Nat
deriving DecidableEq, Repr

/-- `RGBColor(0, 0, 128)`, the navy blue used for subheadings. -/
def navy : Rgb := ⟨0, 0, 128⟩

/-- A run inside a paragraph.  `color = none` means no explicit color was
set, i.e. the inherited default (black). -/
structure Run where
  text : String
  color : Option Rgb
deriving DecidableEq, Repr

/-- A paragraph: text, optional named style, its runs, and the paragraph
formatting the script sets (`alignment`, `space_after` in points,
`line_spacing`). `none` means the script did not set the property. -/
structure Paragraph where
  text : String
  style : Option String
  runs : List Run
  alignment : Option Nat
  spaceAfterPt : Option Nat
  lineSpacing : Option Nat
deriving DecidableEq, Repr

/-- `doc.add_paragraph(text, style)`: python-docx creates one run holding
the whole text when the text is non-empty, and no run when it is empty. -/
def addParagraph (text : String) (style : Option String) : Paragraph :=
  { text := text
    style := style
    runs := if text = "" then [] else [{ text := text, color := none }]
    alignment := none
    spaceAfterPt := none
    lineSpacing := none }

/-- `p.runs[0].font.color.rgb = c`: sets the color of the first run;
`none` models Python's `IndexError` when the paragraph has no run. -/
def setFirstRunColor (p : Paragraph) (c : Rgb) : Option Paragraph :=
  match p.runs with
  | [] => none
  | r :: rs => some { p with runs := { r with color := c } :: rs }

/-- `Pt(n)` as a length in EMU (python-docx: 12700 EMU per point). -/
def Pt (n : Nat) : Nat := n * 12700

/-- `Inches(n)` as a length in EMU (python-docx: 914400 EMU per inch). -/
def Inches (n : Nat) : Nat := n * 914400

/-- The generated document: the four section margins (in EMU), the fields
of the shared `Normal` style the loop mutates (`p.style.font.name`,
`p.style.font.size`), and the paragraph list. -/
structure Docx where
  leftMargin : Nat
  rightMargin : Nat
  topMargin : Nat
  bottomMargin : Nat
  normalFontName : Option String
  normalFontSizePt : Option Nat
  paragraphs : List Paragraph
deriving DecidableEq, Repr

/-! ### The formatting loop (`UseCase2.py` lines 156-188) -/

/-- The fixed keyword set of line 168. -/
def subheading_keywords : List String :=
  ["Industry Trends", "Technological Impacts", "Regulatory Considerations",
   "Future Outlook", "Conclusion"]

/-- Line 172: `any(keyword in clean_line for keyword in subheading_keywords)`. -/
def isSubheadingLine (clean_line : String) : Bool :=
  subheading_keywords.any (fun keyword => strContains clean_line keyword)

/-- One iteration of the loop at lines 170-183: strip `*`, add the
paragraph, color the first run navy when a keyword occurs, then set
left alignment, zero space-after and single line spacing.  `none` models
the `IndexError` that `p.runs[0]` would raise on a run-less paragraph. -/
def formatLine (line : String) : Option Paragraph :=
  (if isSubheadingLine (stripStars line) then
      setFirstRunColor (addParagraph (stripStars line) none) navy
    else
      some (addParagraph (stripStars line) none)).map
    (fun p => { p with alignment := some 0, spaceAfterPt := some 0, lineSpacing := some 1 })

/-- Lines 157-188: margins `Pt(72)` on all four sides, the literal
`Heading 1` paragraph, then one formatted paragraph per line of
`text_content.split('\n')`.  The `Normal`-style font fields are assigned
inside the loop, hence set exactly when at least one line is processed. -/
def buildDocument (text_content : String) : Option Docx :=
  match (splitLines text_content).mapM formatLine with
  | none => none
  | some ps =>
    some
      { leftMargin := Pt 72
        rightMargin := Pt 72
        topMargin := Pt 72
        bottomMargin := Pt 72
        normalFontName := if (splitLines text_content).isEmpty then none else some "Times New Roman"
        normalFontSizePt := if (splitLines text_content).isEmpty then none else some 11
        paragraphs := addParagraph "Industry Insights Report" (some "Heading 1") :: ps }

/-! ### Evaluated forms and helper lemmas -/

/-- The paragraph `formatLine` actually produces (evaluated form). -/
def formattedParagraph (line : String) : Paragraph :=
  { text := stripStars line
    style := none
    runs :=
      if stripStars line = "" then []
      else [{ text := stripStars line
              color := if isSubheadingLine (stripStars line) then some navy else none }]
    alignment := some 0
    spaceAfterPt := some 0
    lineSpacing := some 1 }

theorem containsList_nil_of_ne {needle : List Char} (h : needle ≠ []) :
    containsList needle [] = false := by
  cases needle with
  | nil => exact absurd rfl h
  | cons a t => rfl

theorem keywords_data_ne_nil : ∀ k ∈ subheading_keywords, k.data ≠ [] := by decide

theorem isSubheadingLine_data_ne_nil {s : String} (h : isSubheadingLine s = true) :
    s.data ≠ [] := by
  intro hnil
  unfold isSubheadingLine at h
  rw [List.any_eq_true] at h
  obtain ⟨k, hk, hks⟩ := h
  unfold strContains at hks
  rw [hnil] at hks
  rw [containsList_nil_of_ne (keywords_data_ne_nil k hk)] at hks
  exact Bool.false_ne_true hks

theorem isSubheadingLine_ne_empty {s : String} (h : isSubheadingLine s = true) :
    s ≠ "" := by
  intro he
  exact isSubheadingLine_data_ne_nil h (by rw [he])

theorem formatLine_eq (line : String) :
    formatLine line = some (formattedParagraph line) := by
  unfold formatLine formattedParagraph
  cases h : isSubheadingLine (stripStars line) with
  | true =>
    have hne : stripStars line ≠ "" := isSubheadingLine_ne_empty h
    simp [h, hne, addParagraph, setFirstRunColor]
  | false =>
    by_cases he : stripStars line = "" <;> simp [h, he, addParagraph]

theorem mapM_formatLine (ls : List String) :
    ls.mapM formatLine = some (ls.map formattedParagraph) := by
  induction ls with
  | nil => rfl
  | cons a t ih => rw [List.mapM_cons, formatLine_eq, ih]; rfl

/-- The document `buildDocument` actually produces (evaluated form). -/
def builtDocx (text_content : String) : Docx :=
  { leftMargin := Pt 72
    rightMargin := Pt 72
    topMargin := Pt 72
    bottomMargin := Pt 72
    normalFontName := if (splitLines text_content).isEmpty then none else some "Times New Roman"
    normalFontSizePt := if (splitLines text_content).isEmpty then none else some 11
    paragraphs :=
      addParagraph "Industry Insights Report" (some "Heading 1")
        :: (splitLines text_content).map formattedParagraph }

theorem buildDocument_eq (t : String) : buildDocument t = some (builtDocx t) := by
  unfold buildDocument builtDocx
  rw [mapM_formatLine]

/-! ### Claims about document formatting -/

/-- C1: a rendered paragraph is navy blue (RGB 0,0,128) on the full
paragraph if and only if the stripped line contains at least one of the
subheading keywords as a case-sensitive substring; every other line's
runs keep the default (black) color. -/
theorem keyword_lines_render_navy_iff (line : String) (p : Paragraph)
    (hp : formatLine line = some p) :
    ((p.runs ≠ [] ∧ ∀ r ∈ p.runs, r.color = some navy) ↔
      isSubheadingLine (stripStars line) = true)
    ∧ (isSubheadingLine (stripStars line) = false →
        ∀ r ∈ p.runs, r.color = none) := by
  rw [formatLine_eq] at hp
  cases Option.some.inj hp
  unfold formattedParagraph
  cases h : isSubheadingLine (stripStars line) with
  | true =>
    have hne := isSubheadingLine_ne_empty h
    simp [h, hne]
  | false =>
    by_cases he : stripStars line = "" <;> simp [h, he]

/-- Witness for C1 at the concrete line `**Future Outlook**`. -/
theorem keyword_lines_render_navy_iff_witness :
    (formatLine "**Future Outlook**" = some (formattedParagraph "**Future Outlook**"))
    ∧ ((formattedParagraph "**Future Outlook**").runs ≠ []
        ∧ ∀ r ∈ (formattedParagraph "**Future Outlook**").runs, r.color = some navy) :=
  ⟨formatLine_eq _,
   (keyword_lines_render_navy_iff "**Future Outlook**" _ (formatLine_eq _)).1.mpr
     (by decide)⟩

/-- C2: leading and trailing `*` are stripped before rendering (the
paragraph text is always the stripped line), and the concrete input
`**Conclusion**` yields paragraph text `Conclusion`, classified and
styled as a subheading (navy first run, no named style). -/
theorem stars_stripped_before_render :
    (∀ (line : String) (p : Paragraph), formatLine line = some p →
        p.text = stripStars line)
    ∧ (∃ p, formatLine "**Conclusion**" = some p ∧ p.text = "Conclusion"
        ∧ isSubheadingLine (stripStars "**Conclusion**") = true
        ∧ p.runs ≠ [] ∧ ∀ r ∈ p.runs, r.color = some navy) := by
  constructor
  · intro line p hp
    rw [formatLine_eq] at hp
    cases Option.some.inj hp
    rfl
  · exact ⟨formattedParagraph "**Conclusion**", formatLine_eq _,
      by decide, by decide, by decide, by decide⟩

/-- Witness for C2's universally quantified part at `*Body text*`. -/
theorem stars_stripped_before_render_witness :
    ∃ p, formatLine "*Body text*" = some p ∧ p.text = stripStars "*Body text*" :=
  ⟨formattedParagraph "*Body text*", formatLine_eq _,
   stars_stripped_before_render.1 "*Body text*" _ (formatLine_eq _)⟩

/-- C3: for every article text (including the empty text) the generated
document exists, its first paragraph is the literal string
`Industry Insights Report` styled `Heading 1`, and the document has at
least one paragraph. -/
theorem first_paragraph_is_report_heading (t : String) :
    ∃ d, buildDocument t = some d
      ∧ (∃ p, d.paragraphs.head? = some p
          ∧ p.text = "Industry Insights Report" ∧ p.style = some "Heading 1")
      ∧ d.paragraphs ≠ [] := by
  refine ⟨builtDocx t, buildDocument_eq t, ⟨_, rfl, rfl, rfl⟩, ?_⟩
  simp [builtDocx]

/-- C6 counterexample: on the text `a\n\nb` the middle empty line also
yields a rendered paragraph (with empty text), so the number of output
paragraphs (3) differs from the number of non-empty lines (2). -/
theorem empty_line_still_renders_paragraph :
    ∃ d, buildDocument "a\n\nb" = some d
      ∧ d.paragraphs.map Paragraph.text = ["Industry Insights Report", "a", "", "b"]
      ∧ ((splitLines "a\n\nb").filter (fun l => l ≠ "")).length = 2
      ∧ d.paragraphs.length - 1 ≠ 2 :=
  ⟨builtDocx "a\n\nb", buildDocument_eq _, by decide, by decide, by decide⟩

/-- C6 amended: document formatting processes every line of the final
text, empty lines included — each line of `split('\n')` yields exactly
one output paragraph whose text is the `*`-stripped line. -/
theorem every_line_renders_exactly_one_paragraph (t : String) :
    ∃ d, buildDocument t = some d
      ∧ d.paragraphs.map Paragraph.text
          = "Industry Insights Report" :: (splitLines t).map stripStars
      ∧ d.paragraphs.length = (splitLines t).length + 1 := by
  refine ⟨builtDocx t, buildDocument_eq t, ?_, ?_⟩
  · simp only [builtDocx, List.map_cons, List.map_map]
    rfl
  · simp [builtDocx]

/-- C7 counterexample: the four margins are the constant `Pt 72`, and
72 points is exactly one inch (914400 EMU) — refuting the claim that the
value differs from a true 1-inch margin. -/
theorem margin_72pt_equals_one_inch :
    ∃ d, buildDocument "" = some d
      ∧ d.leftMargin = Pt 72 ∧ d.rightMargin = Pt 72
      ∧ d.topMargin = Pt 72 ∧ d.bottomMargin = Pt 72
      ∧ Pt 72 = Inches 1 ∧ Pt 72 = 914400 :=
  ⟨builtDocx "", buildDocument_eq _, rfl, rfl, rfl, rfl, by decide, by decide⟩

/-- C7 amended: the margin applied identically to all four sides is the
constant 72 points, and this length equals a true 1-inch margin. -/
theorem margins_are_72pt_one_inch (t : String) :
    ∃ d, buildDocument t = some d
      ∧ d.leftMargin = Pt 72 ∧ d.rightMargin = Pt 72
      ∧ d.topMargin = Pt 72 ∧ d.bottomMargin = Pt 72
      ∧ Pt 72 = Inches 1 :=
  ⟨builtDocx t, buildDocument_eq t, rfl, rfl, rfl, rfl, by decide⟩

/-- C10: whenever the subheading branch executes, the stripped line is
non-empty (it contains a non-empty keyword), so the created paragraph
has at least one run and `p.runs[0]` never fails. -/
theorem subheading_branch_first_run_access_safe (line : String)
    (h : isSubheadingLine (stripStars line) = true) :
    stripStars line ≠ ""
    ∧ ∃ p, formatLine line = some p ∧ p.runs ≠ [] := by
  have hne := isSubheadingLine_ne_empty h
  refine ⟨hne, formattedParagraph line, formatLine_eq line, ?_⟩
  unfold formattedParagraph
  simp [hne]

/-- Witness for C10 at the concrete line `**Conclusion**`. -/
theorem subheading_branch_first_run_access_safe_witness :
    isSubheadingLine (stripStars "**Conclusion**") = true
    ∧ (stripStars "**Conclusion**" ≠ ""
        ∧ ∃ p, formatLine "**Conclusion**" = some p ∧ p.runs ≠ []) :=
  ⟨by decide, subheading_branch_first_run_access_safe "**Conclusion**" (by decide)⟩

/-! ### The submit handler (`UseCase2.py` lines 28-204) -/

/-- Outcome of the single `requests.get` credential check.  A
`transportError` is a `RequestException` raised without any attached
response (`e.response is None`); `httpResponse` carries the status code
and body text of a completed HTTP exchange. -/
inductive ReqOutcome where
  | transportError (msg : String)
  | httpResponse (status : Nat) (body : String)
deriving DecidableEq, Repr

/-- Outcome of `crew.kickoff()`: either an exception message or the raw
final article text. -/
inductive PipeOutcome where
  | pipeError (msg : String)
  | pipeOk (raw : String)
deriving DecidableEq, Repr

/-- `response.raise_for_status()` raises `HTTPError` exactly for 4xx and
5xx status codes. -/
def raiseForStatusRaises (status : Nat) : Bool :=
  decide (400 ≤ status ∧ status < 600)

/-- Did the credential check fail (transport failure, or an HTTP error
status that `raise_for_status` raises on)? -/
def credentialCheckFailed : ReqOutcome → Bool
  | .transportError _ => true
  | .httpResponse status _ => raiseForStatusRaises status

/-- Did `crew.kickoff()` raise? -/
def pipelineFailed : PipeOutcome → Bool
  | .pipeError _ => true
  | .pipeOk _ => false

/-- Lines 39-42: concatenate the uploaded file contents, each preceded
by a newline. -/
def concatTranscripts (files : List String) : String :=
  files.foldl (fun acc f => acc ++ "\n" ++ f) ""

/-- Observable result of one press of `Generate Research Article`:
messages shown, environment-variable assignments made, number of HTTP
requests issued, whether `crew.kickoff()` ran, the document offered for
download (if any), and a possible exception escaping the handlers. -/
structure Trace where
  errors : List String
  successes : List String
  envSets : List (String × String)
  requestCount : Nat
  pipelineInvoked : Bool
  download : Option Docx
  uncaught : Option String
deriving DecidableEq, Repr

/-- Lines 28-204, as a function of the external outcomes.  Mirrors the
source order: input validation first; then the two `os.environ`
assignments; then the single `requests.get` plus `raise_for_status`;
on success the pipeline, the document build, and the download offer.
A `RequestException` lands in the first `except`, which always shows
`API Error: ...` and then evaluates `e.response.status_code`; when the
exception carries no response that dereferences `None` and the resulting
`AttributeError` escapes both handlers (the second `except` is a sibling,
not an enclosing one).  Any other exception lands in the catch-all. -/
def runSubmit (files : List String) (apiKey : String)
    (req : ReqOutcome) (pipe : PipeOutcome) : Trace :=
  if files = [] then
    { errors := ["Please upload at least one transcript file."], successes := []
      envSets := [], requestCount := 0, pipelineInvoked := false
      download := none, uncaught := none }
  else if apiKey = "" then
    { errors := ["Please enter your OpenAI API Key."], successes := []
      envSets := [], requestCount := 0, pipelineInvoked := false
      download := none, uncaught := none }
  else
    match req with
    | .transportError msg =>
      { errors := ["API Error: " ++ msg], successes := []
        envSets := [("OPENAI_API_KEY", apiKey), ("OPENAI_MODEL_NAME", "gpt-4o")]
        requestCount := 1, pipelineInvoked := false, download := none
        uncaught := some "AttributeError: NoneType object has no attribute status_code" }
    | .httpResponse status body =>
      if raiseForStatusRaises status then
        { errors := ["API Error: " ++ toString status
                       ++ " Error for url https://api.openai.com/v1/models",
                     "Response Status Code: " ++ toString status,
                     "Response Content: " ++ body]
          successes := []
          envSets := [("OPENAI_API_KEY", apiKey), ("OPENAI_MODEL_NAME", "gpt-4o")]
          requestCount := 1, pipelineInvoked := false, download := none
          uncaught := none }
      else
        match pipe with
        | .pipeError msg =>
          { errors := ["An error occurred: " ++ msg]
            successes := ["API connection successful!"]
            envSets := [("OPENAI_API_KEY", apiKey), ("OPENAI_MODEL_NAME", "gpt-4o")]
            requestCount := 1, pipelineInvoked := true, download := none
            uncaught := none }
        | .pipeOk raw =>
          match buildDocument raw with
          | none =>
            { errors := ["An error occurred: list index out of range"]
              successes := ["API connection successful!",
                            "Research article generated successfully!"]
              envSets := [("OPENAI_API_KEY", apiKey), ("OPENAI_MODEL_NAME", "gpt-4o")]
              requestCount := 1, pipelineInvoked := true, download := none
              uncaught := none }
          | some d =>
            { errors := []
              successes := ["API connection successful!",
                            "Research article generated successfully!"]
              envSets := [("OPENAI_API_KEY", apiKey), ("OPENAI_MODEL_NAME", "gpt-4o")]
              requestCount := 1, pipelineInvoked := true, download := some d
              uncaught := none }

/-! ### Claims about the submit flow -/

/-- C4: triggering submit with zero uploaded files, or with files but an
empty credential, shows the corresponding inline error and performs
neither the credential-check request nor the pipeline invocation. -/
theorem missing_input_blocks_request_and_pipeline
    (files : List String) (apiKey : String) (req : ReqOutcome) (pipe : PipeOutcome)
    (h : files = [] ∨ apiKey = "") :
    (runSubmit files apiKey req pipe).errors
        = (if files = [] then ["Please upload at least one transcript file."]
           else ["Please enter your OpenAI API Key."])
    ∧ (runSubmit files apiKey req pipe).requestCount = 0
    ∧ (runSubmit files apiKey req pipe).pipelineInvoked = false
    ∧ (runSubmit files apiKey req pipe).download = none
    ∧ (runSubmit files apiKey req pipe).envSets = [] := by
  rcases h with h | h
  · simp [runSubmit, h]
  · by_cases hf : files = [] <;> simp [runSubmit, hf, h]

/-- Witness for C4 with zero uploaded files. -/
theorem missing_input_blocks_request_and_pipeline_witness :
    (([] : List String) = [] ∨ "sk-test" = "")
    ∧ (runSubmit [] "sk-test" (ReqOutcome.httpResponse 200 "ok")
        (PipeOutcome.pipeOk "x")).requestCount = 0
    ∧ (runSubmit [] "sk-test" (ReqOutcome.httpResponse 200 "ok")
        (PipeOutcome.pipeOk "x")).pipelineInvoked = false :=
  ⟨Or.inl rfl,
   (missing_input_blocks_request_and_pipeline [] "sk-test"
      (ReqOutcome.httpResponse 200 "ok") (PipeOutcome.pipeOk "x") (Or.inl rfl)).2.1,
   (missing_input_blocks_request_and_pipeline [] "sk-test"
      (ReqOutcome.httpResponse 200 "ok") (PipeOutcome.pipeOk "x") (Or.inl rfl)).2.2.1⟩

/-- C5 counterexample: on a transport failure with no attached response,
the only message shown is the generic `API Error` line — no status code
and no body text are surfaced (none exist), and the handler itself then
raises; moreover a non-2xx status that `raise_for_status` accepts (301)
does reach the pipeline. -/
theorem transport_error_lacks_status_in_message :
    ((runSubmit ["t"] "sk-live" (ReqOutcome.transportError "Connection refused")
        (PipeOutcome.pipeOk "x")).errors = ["API Error: Connection refused"])
    ∧ ((runSubmit ["t"] "sk-live" (ReqOutcome.transportError "Connection refused")
        (PipeOutcome.pipeOk "x")).uncaught ≠ none)
    ∧ ((runSubmit ["q"] "sk-live" (ReqOutcome.httpResponse 301 "Moved")
        (PipeOutcome.pipeOk "y")).pipelineInvoked = true) :=
  ⟨rfl, by decide, rfl⟩

/-- C5 amended: the credential check issues exactly one request with no
retry.  An HTTP error status (400-599) surfaces errors including the
response status code and response body text, and the pipeline is not
invoked.  A transport failure with no attached response surfaces only
the generic `API Error` message (no status or body exist), the handler
itself raises on the missing response, and the pipeline is not invoked.
A completed response that `raise_for_status` accepts proceeds to the
pipeline. -/
theorem credential_check_single_attempt_failfast
    (files : List String) (apiKey : String) (pipe : PipeOutcome)
    (hf : files ≠ []) (hk : apiKey ≠ "") :
    (∀ status body, 400 ≤ status → status < 600 →
        (runSubmit files apiKey (ReqOutcome.httpResponse status body) pipe).requestCount = 1
        ∧ ("Response Status Code: " ++ toString status)
            ∈ (runSubmit files apiKey (ReqOutcome.httpResponse status body) pipe).errors
        ∧ ("Response Content: " ++ body)
            ∈ (runSubmit files apiKey (ReqOutcome.httpResponse status body) pipe).errors
        ∧ (runSubmit files apiKey (ReqOutcome.httpResponse status body) pipe).pipelineInvoked
            = false
        ∧ (runSubmit files apiKey (ReqOutcome.httpResponse status body) pipe).download = none)
    ∧ (∀ msg,
        (runSubmit files apiKey (ReqOutcome.transportError msg) pipe).requestCount = 1
        ∧ (runSubmit files apiKey (ReqOutcome.transportError msg) pipe).errors
            = ["API Error: " ++ msg]
        ∧ (runSubmit files apiKey (ReqOutcome.transportError msg) pipe).pipelineInvoked = false
        ∧ (runSubmit files apiKey (ReqOutcome.transportError msg) pipe).download = none
        ∧ (runSubmit files apiKey (ReqOutcome.transportError msg) pipe).uncaught ≠ none)
    ∧ (∀ status body, raiseForStatusRaises status = false →
        (runSubmit files apiKey (ReqOutcome.httpResponse status body) pipe).requestCount = 1
        ∧ (runSubmit files apiKey (ReqOutcome.httpResponse status body) pipe).pipelineInvoked
            = true) := by
  refine ⟨?_, ?_, ?_⟩
  · intro status body h1 h2
    have hr : raiseForStatusRaises status = true := by
      unfold raiseForStatusRaises
      exact decide_eq_true ⟨h1, h2⟩
    simp [runSubmit, hf, hk, hr]
  · intro msg
    simp [runSubmit, hf, hk]
  · intro status body hr
    cases pipe with
    | pipeError m => simp [runSubmit, hf, hk, hr]
    | pipeOk raw => simp [runSubmit, hf, hk, hr, buildDocument_eq]

/-- Witness for C5 (amended) at a concrete 404 response. -/
theorem credential_check_single_attempt_failfast_witness :
    (["t"] ≠ ([] : List String)) ∧ ("sk-w" ≠ "") ∧ 400 ≤ 404 ∧ 404 < 600
    ∧ (runSubmit ["t"] "sk-w" (ReqOutcome.httpResponse 404 "not found")
        (PipeOutcome.pipeOk "x")).requestCount = 1
    ∧ ("Response Content: " ++ "not found")
        ∈ (runSubmit ["t"] "sk-w" (ReqOutcome.httpResponse 404 "not found")
            (PipeOutcome.pipeOk "x")).errors :=
  ⟨by decide, by decide, by decide, by decide,
   ((credential_check_single_attempt_failfast ["t"] "sk-w" (PipeOutcome.pipeOk "x")
       (by decide) (by decide)).1 404 "not found" (by decide) (by decide)).1,
   ((credential_check_single_attempt_failfast ["t"] "sk-w" (PipeOutcome.pipeOk "x")
       (by decide) (by decide)).1 404 "not found" (by decide) (by decide)).2.2.1⟩

/-- C8: if the credential check fails or the pipeline raises, no
document download is ever offered for that invocation. -/
theorem failure_before_formatting_blocks_download
    (files : List String) (apiKey : String) (req : ReqOutcome) (pipe : PipeOutcome)
    (h : credentialCheckFailed req = true ∨ pipelineFailed pipe = true) :
    (runSubmit files apiKey req pipe).download = none := by
  by_cases hf : files = []
  · simp [runSubmit, hf]
  · by_cases hk : apiKey = ""
    · simp [runSubmit, hf, hk]
    · cases req with
      | transportError msg => simp [runSubmit, hf, hk]
      | httpResponse status body =>
        by_cases hr : raiseForStatusRaises status = true
        · simp [runSubmit, hf, hk, hr]
        · rw [Bool.not_eq_true] at hr
          have hp : pipelineFailed pipe = true := by
            rcases h with h | h
            · exact absurd h (by simp [credentialCheckFailed, hr])
            · exact h
          cases pipe with
          | pipeError m => simp [runSubmit, hf, hk, hr]
          | pipeOk raw => exact absurd hp (by simp [pipelineFailed])

/-- Witness for C8 at a concrete 500 response. -/
theorem failure_before_formatting_blocks_download_witness :
    (credentialCheckFailed (ReqOutcome.httpResponse 500 "server error") = true
      ∨ pipelineFailed (PipeOutcome.pipeOk "x") = true)
    ∧ (runSubmit ["t"] "sk-d" (ReqOutcome.httpResponse 500 "server error")
        (PipeOutcome.pipeOk "x")).download = none :=
  ⟨Or.inl (by decide),
   failure_before_formatting_blocks_download ["t"] "sk-d"
     (ReqOutcome.httpResponse 500 "server error") (PipeOutcome.pipeOk "x")
     (Or.inl (by decide))⟩

/-- C9 counterexample: on an invocation whose credential check fails
with HTTP 401, the two environment variables have nevertheless been
assigned — they are set before the credential check, not only after it
succeeds. -/
theorem env_set_despite_failed_credential_check :
    ((runSubmit ["t"] "sk-9" (ReqOutcome.httpResponse 401 "Unauthorized")
        (PipeOutcome.pipeOk "x")).envSets
      = [("OPENAI_API_KEY", "sk-9"), ("OPENAI_MODEL_NAME", "gpt-4o")])
    ∧ ((runSubmit ["t"] "sk-9" (ReqOutcome.httpResponse 401 "Unauthorized")
        (PipeOutcome.pipeOk "x")).pipelineInvoked = false)
    ∧ credentialCheckFailed (ReqOutcome.httpResponse 401 "Unauthorized") = true :=
  ⟨rfl, rfl, by decide⟩

/-- C9 amended: on every invocation that passes input validation the
credential and the fixed model identifier are written to the process
environment before the credential check runs (hence also on invocations
whose check fails), the same two assignments are made on every such
invocation (overwriting any previous values), and nothing ever clears
them. -/
theorem env_set_after_validation_before_check
    (files : List String) (apiKey : String) (req : ReqOutcome) (pipe : PipeOutcome)
    (hf : files ≠ []) (hk : apiKey ≠ "") :
    (runSubmit files apiKey req pipe).envSets
      = [("OPENAI_API_KEY", apiKey), ("OPENAI_MODEL_NAME", "gpt-4o")] := by
  cases req with
  | transportError msg => simp [runSubmit, hf, hk]
  | httpResponse status body =>
    by_cases hr : raiseForStatusRaises status = true
    · simp [runSubmit, hf, hk, hr]
    · rw [Bool.not_eq_true] at hr
      cases pipe with
      | pipeError m => simp [runSubmit, hf, hk, hr]
      | pipeOk raw => simp [runSubmit, hf, hk, hr, buildDocument_eq]

/-- Witness for C9 (amended) at a concrete transport failure. -/
theorem env_set_after_validation_before_check_witness :
    (["a"] ≠ ([] : List String)) ∧ ("sk-z" ≠ "")
    ∧ (runSubmit ["a"] "sk-z" (ReqOutcome.transportError "timeout")
        (PipeOutcome.pipeOk "x")).envSets
      = [("OPENAI_API_KEY", "sk-z"), ("OPENAI_MODEL_NAME", "gpt-4o")] :=
  ⟨by decide, by decide,
   env_set_after_validation_before_check ["a"] "sk-z"
     (ReqOutcome.transportError "timeout") (PipeOutcome.pipeOk "x")
     (by decide) (by decide)⟩
